import Mathlib

/-!
Shallow embedding of the two core components of the repository
(`src/src-tauri/src/lib.rs`): the workspace access grantor
(`allow_workspace_dir`) and the application icon resolution pipeline
(`find_app_path` / `get_app_icon`).

The host operating system (filesystem queries, environment variables,
subprocess invocations) is modelled as an explicit environment record of
oracles; the Tauri filesystem-scope registry and the temporary-file area
are modelled as explicit state threaded through the functions.  All string
manipulation is implemented over `List Char` by structural recursion so
that concrete instances evaluate inside the kernel.
-/

/-! ## Character and string helpers (models of the Rust std string operations) -/

/-- The newline character, `\n`. -/
def nlChar : Char := Char.ofNat 10

/-- The carriage-return character, `\r`. -/
def crChar : Char := Char.ofNat 13

/-- The ASCII space character. -/
def spaceChar : Char := Char.ofNat 32

/-- The underscore character. -/
def usChar : Char := Char.ofNat 95

/-- The single-quote character used by the mdfind query strings. -/
def sqChar : Char := Char.ofNat 39

/-- The path separator character. -/
def sepChar : Char := Char.ofNat 47

/-- Split a character list at every occurrence of `c` (the separators are
dropped; `n + 1` pieces for `n` separators, like Rust `str::split`). -/
def splitOnChar (c : Char) : List Char → List (List Char)
  | [] => [[]]
  | x :: xs =>
    match splitOnChar c xs, x == c with
    | r, true => [] :: r
    | [], false => [[x]]
    | y :: ys, false => (x :: y) :: ys

/-- Boolean test that `p` is a prefix of `l` (component by component). -/
def listPre {α : Type} [BEq α] : List α → List α → Bool
  | [], _ => true
  | _ :: _, [] => false
  | a :: as, b :: bs => a == b && listPre as bs

/-- Model of Rust `str::starts_with` on strings (byte/char-wise). -/
def strStartsWith (s pre : String) : Bool := listPre pre.data s.data

/-- Model of Rust `str::ends_with` on strings (byte/char-wise). -/
def strEndsWith (s suf : String) : Bool := listPre suf.data.reverse s.data.reverse

/-- Model of Rust `str::trim`: drop whitespace from both ends. -/
def strTrim (s : String) : String :=
  String.mk (((s.data.dropWhile Char.isWhitespace).reverse.dropWhile Char.isWhitespace).reverse)

/-- Model of Rust `str::replace(' ', "_")`. -/
def replaceSpaces (s : String) : String :=
  String.mk (s.data.map (fun c => if c == spaceChar then usChar else c))

/-- Drop a trailing empty piece, as Rust `str::lines` treats `\n` as a
terminator rather than a separator. -/
def dropLastEmpty : List (List Char) → List (List Char)
  | [] => []
  | [l] => if l.isEmpty then [] else [l]
  | l :: ls => l :: dropLastEmpty ls

/-- Strip one trailing carriage return, as Rust `str::lines` does. -/
def stripCR (l : List Char) : List Char :=
  match l.getLast? with
  | some c => if c == crChar then l.dropLast else l
  | none => l

/-- Model of Rust `str::lines`: split on `\n`, drop the trailing empty piece,
strip a trailing `\r` from each line. -/
def rustLines (s : String) : List String :=
  ((dropLastEmpty (splitOnChar nlChar s.data)).map stripCR).map String.mk

/-! ## Path components and Rust `Path::starts_with`

Rust's `Path::starts_with` compares whole path components, never raw string
prefixes.  Canonical paths (the only paths the code feeds into it) contain
no `.` or `..` components, so splitting on `/`, keeping a root marker and
discarding empty components is a faithful model of `Path::components`. -/

/-- The components of a path: a root marker for absolute paths followed by
the non-empty `/`-separated pieces (duplicate and trailing separators
collapse, as in Rust `Path::components`). -/
def pathComponents (s : String) : List String :=
  (if strStartsWith s "/" then ["/"] else []) ++
    (((splitOnChar sepChar s.data).filter (fun l => !l.isEmpty)).map String.mk)

/-- Model of Rust `Path::starts_with`: `base`'s components are a prefix of
`p`'s components.  This holds exactly when `p` is `base` itself or a
descendant of it. -/
def pathStartsWith (p base : String) : Bool :=
  listPre (pathComponents base) (pathComponents p)

/-! ## AccessGrantor: `allow_workspace_dir` -/

/-- Error kinds of `allow_workspace_dir`; each constructor corresponds to one
of the error strings produced in the source ("Invalid path: …",
"Selected path is not a directory", "Selected folder must be inside your
home directory", "Failed to allow directory: …"). -/
inductive GrantError where
  | invalidPath
  | notADirectory
  | outsideAllowedRoot
  | registrationFailed
deriving Repr, DecidableEq

/-- Host environment seen by `allow_workspace_dir`:
`canonicalize` models `Path::canonicalize` (`none` = the path does not exist
or cannot be resolved), `isDir` models `Path::is_dir` on the canonical path,
`home` models `env::var("HOME")` (`none` = unset or unreadable), and
`allowDirOk` tells whether the registry's `allow_directory` call succeeds. -/
structure GrantEnv where
  canonicalize : String → Option String
  isDir : String → Bool
  home : Option String
  allowDirOk : String → Bool

/-- The permission registry state: the list of `allow_directory` invocations
made so far, most recent first, each `(path, recursive)`. -/
abbrev ScopeState : Type := List (String × Bool)

/-- The registration step of `allow_workspace_dir`:
`scope.allow_directory(canonical, true)`, recording the invocation and
mapping a registry failure to `registrationFailed`. -/
def registerDir (env : GrantEnv) (canonical : String) (st : ScopeState) :
    Except GrantError Unit × ScopeState :=
  let st2 : ScopeState := (canonical, true) :: st
  if env.allowDirOk canonical then (.ok (), st2)
  else (.error .registrationFailed, st2)

/-- Embedding of `allow_workspace_dir` from `src/src-tauri/src/lib.rs`:
canonicalize, require a directory, require containment in `$HOME` when that
variable is readable, then register the directory recursively. -/
def allow_workspace_dir (env : GrantEnv) (path : String) (st : ScopeState) :
    Except GrantError Unit × ScopeState :=
  match env.canonicalize path with
  | none => (.error .invalidPath, st)
  | some canonical =>
    if !(env.isDir canonical) then (.error .notADirectory, st)
    else
      match env.home with
      | some home =>
        if !(pathStartsWith canonical home) then (.error .outsideAllowedRoot, st)
        else registerDir env canonical st
      | none => registerDir env canonical st

/-! ## Base64 (model of `base64::engine::general_purpose::STANDARD.encode`) -/

/-- The padding character of standard base64. -/
def padChar : Char := Char.ofNat 61

/-- The standard base64 alphabet. -/
def b64Table : List Char :=
  "ABCDEFGHIJKLMNOPQRSTUVWXYZabcdefghijklmnopqrstuvwxyz0123456789+/".data

/-- The alphabet character for a 6-bit value. -/
def b64Char (n : Nat) : Char := b64Table.getD n (Char.ofNat 65)

/-- Standard base64 with padding over a byte list (each byte taken mod 256,
as the source operates on `u8`). -/
def b64Encode : List Nat → List Char
  | [] => []
  | [a] =>
    let x := a % 256
    [b64Char (x / 4), b64Char (x % 4 * 16), padChar, padChar]
  | [a, b] =>
    let x := a % 256
    let y := b % 256
    [b64Char (x / 4), b64Char (x % 4 * 16 + y / 16), b64Char (y % 16 * 4), padChar]
  | a :: b :: c :: rest =>
    let x := a % 256
    let y := b % 256
    let z := c % 256
    b64Char (x / 4) :: b64Char (x % 4 * 16 + y / 16) ::
      b64Char (y % 16 * 4 + z / 64) :: b64Char (z % 64) :: b64Encode rest

/-- Standard base64 of a byte list, as a string. -/
def base64Encode (bs : List Nat) : String := String.mk (b64Encode bs)

/-! ## IconResolver: `find_app_path` and `get_app_icon` -/

/-- Captured output of a finished subprocess: exit-status success flag,
stdout and stderr (decoded, as the source reads them with
`String::from_utf8_lossy`). -/
structure ProcOut where
  success : Bool
  stdout : String
  stderr : String
deriving Repr, DecidableEq

/-- Error kinds of the icon pipeline; each constructor corresponds to one of
the error strings produced in the source ("App not found: …",
"Failed to read plist: …", "Icon file not found: …", "Failed to run
sips: …", "sips failed: …", "Failed to read PNG: …"). -/
inductive IconError where
  | appNotFound (name : String)
  | plistReadError
  | iconNotFound (path : String)
  | sipsSpawnError
  | sipsFailed (stderr : String)
  | readPngError
deriving Repr, DecidableEq

/-- Host environment seen by the icon pipeline:
`mdfind q` models `Command::new("mdfind").arg(q).output()` (`none` = spawn
error), `defaults p` models `defaults read p CFBundleIconFile`, `pathExists`
models `Path::exists`, `sips src dst` models the sips invocation (`none` =
spawn error), `sipsBytes src` gives the bytes sips writes to the output file
when it succeeds, and `tempDir` models `env::temp_dir()`. -/
structure IconEnv where
  mdfind : String → Option ProcOut
  defaults : String → Option ProcOut
  pathExists : String → Bool
  sips : String → String → Option ProcOut
  sipsBytes : String → List Nat
  tempDir : String

/-- The temporary-file area: an association of path to byte content. -/
abbrev TmpState : Type := List (String × List Nat)

/-- Content of a temporary file, when it exists. -/
def lookupTmp (st : TmpState) (p : String) : Option (List Nat) :=
  match st.find? (fun e => e.1 == p) with
  | some e => some e.2
  | none => none

/-- Create or overwrite a temporary file. -/
def writeTmp (st : TmpState) (p : String) (bs : List Nat) : TmpState :=
  (p, bs) :: st.filter (fun e => !(e.1 == p))

/-- Remove a temporary file; removing an absent file is a no-op, matching the
ignored result of `fs::remove_file` in the source. -/
def removeTmp (st : TmpState) (p : String) : TmpState :=
  st.filter (fun e => !(e.1 == p))

/-- The first mdfind query of `find_app_path`:
`kMDItemDisplayName == '<name>' && kMDItemKind == 'Application'`. -/
def displayQuery (n : String) : String :=
  "kMDItemDisplayName == " ++ String.mk (sqChar :: n.data ++ [sqChar]) ++
    " && kMDItemKind == " ++ String.mk (sqChar :: "Application".data ++ [sqChar])

/-- The second mdfind query of `find_app_path`:
`kMDItemFSName == '<name>.app' && kMDItemKind == 'Application'`. -/
def fsQuery (n : String) : String :=
  "kMDItemFSName == " ++ String.mk (sqChar :: (n ++ ".app").data ++ [sqChar]) ++
    " && kMDItemKind == " ++ String.mk (sqChar :: "Application".data ++ [sqChar])

/-- The well-known-path fallback of `find_app_path`: the first of the four
fixed candidates that exists, otherwise the "App not found" error. -/
def find_app_path_fallback (env : IconEnv) (app_name : String) :
    Except IconError String :=
  match ["/Applications/" ++ app_name ++ ".app",
         "/System/Applications/" ++ app_name ++ ".app",
         "/System/Applications/Utilities/" ++ app_name ++ ".app",
         "/System/Library/CoreServices/" ++ app_name ++ ".app"].find?
      (fun p => env.pathExists p) with
  | some p => .ok p
  | none => .error (.appNotFound app_name)

/-- The part of `find_app_path` from the second mdfind query on. -/
def find_app_path_fs (env : IconEnv) (app_name : String) :
    Except IconError String :=
  match env.mdfind (fsQuery app_name) with
  | some output =>
    match (rustLines output.stdout).find? (fun l => strEndsWith l ".app") with
    | some path => .ok path
    | none => find_app_path_fallback env app_name
  | none => find_app_path_fallback env app_name

/-- Embedding of `find_app_path` from `src/src-tauri/src/lib.rs`: two mdfind
queries (a spawn error or an output without a line ending in `.app` falls
through), then the well-known installation directories, then the
"App not found" error.  The exit status of mdfind is never inspected,
mirroring the source. -/
def find_app_path (env : IconEnv) (app_name : String) : Except IconError String :=
  match env.mdfind (displayQuery app_name) with
  | some output =>
    match (rustLines output.stdout).find? (fun l => strEndsWith l ".app") with
    | some path => .ok path
    | none => find_app_path_fs env app_name
  | none => find_app_path_fs env app_name

/-- The icon file name computed by `get_app_icon` from the stdout of the
plist read: trim, substitute `AppIcon` when empty, append `.icns` when not
already present. -/
def iconFileName (plistStdout : String) : String :=
  let icon_name := strTrim plistStdout
  let icon_name := if icon_name.data.isEmpty then "AppIcon" else icon_name
  if strEndsWith icon_name ".icns" then icon_name else icon_name ++ ".icns"

/-- The deterministic temporary PNG path of `get_app_icon`:
`temp_dir()/neo_icon_<name with spaces replaced by underscores>.png`
(`PathBuf::join` modelled as separator concatenation). -/
def tmpPngPath (env : IconEnv) (app_name : String) : String :=
  env.tempDir ++ "/neo_icon_" ++ replaceSpaces app_name ++ ".png"

/-- The tail of `get_app_icon` once the icns path is fixed: existence check,
sips conversion into the temporary PNG, read-back, best-effort deletion,
base64 data URL. -/
def get_app_icon_at_icns (env : IconEnv) (app_name icns_path : String)
    (st : TmpState) : Except IconError String × TmpState :=
  if !(env.pathExists icns_path) then (.error (.iconNotFound icns_path), st)
  else
    match env.sips icns_path (tmpPngPath env app_name) with
    | none => (.error .sipsSpawnError, st)
    | some r =>
      if !r.success then (.error (.sipsFailed r.stderr), st)
      else
        match lookupTmp (writeTmp st (tmpPngPath env app_name) (env.sipsBytes icns_path))
            (tmpPngPath env app_name) with
        | none =>
          (.error .readPngError,
            writeTmp st (tmpPngPath env app_name) (env.sipsBytes icns_path))
        | some png_data =>
          (.ok ("data:image/png;base64," ++ base64Encode png_data),
            removeTmp (writeTmp st (tmpPngPath env app_name) (env.sipsBytes icns_path))
              (tmpPngPath env app_name))

/-- Embedding of `get_app_icon` from `src/src-tauri/src/lib.rs`: locate the
bundle, read `CFBundleIconFile` from its Info.plist (a spawn error is a hard
failure; the exit status is never inspected, mirroring the source), compute
the icon file name, then convert and encode. -/
def get_app_icon (env : IconEnv) (app_name : String) (st : TmpState) :
    Except IconError String × TmpState :=
  match find_app_path env app_name with
  | .error e => (.error e, st)
  | .ok app_path =>
    match env.defaults (app_path ++ "/Contents/Info.plist") with
    | none => (.error .plistReadError, st)
    | some plist_output =>
      get_app_icon_at_icns env app_name
        (app_path ++ "/Contents/Resources/" ++ iconFileName plist_output.stdout) st

/-! ## Specification-side description of the bundle-location order (for the
refinement comparison with `find_app_path`) -/

/-- Written from the spec's wording: one metadata query returns zero or more
candidate paths and "the first line ending in the bundle suffix is
accepted"; a query whose invocation produced no output yields no match. -/
def mdQueryMatch (env : IconEnv) (q : String) : Option String :=
  (env.mdfind q).bind
    (fun out => (rustLines out.stdout).find? (fun l => strEndsWith l ".app"))

/-- Written from the spec's wording: the "fixed ordered list of well-known
installation directories". -/
def wellKnownDirs : List String :=
  ["/Applications", "/System/Applications", "/System/Applications/Utilities",
   "/System/Library/CoreServices"]

/-- Written from the spec's wording of the bundle-location order: the
display-name query, then the filesystem-name query with the bundle suffix
appended, then the probe of each well-known directory + name + suffix, then
the not-found error. -/
def find_app_path_of_spec (env : IconEnv) (n : String) : Except IconError String :=
  match mdQueryMatch env (displayQuery n) with
  | some p => .ok p
  | none =>
    match mdQueryMatch env (fsQuery n) with
    | some p => .ok p
    | none =>
      match (wellKnownDirs.map (fun d => d ++ "/" ++ n ++ ".app")).find?
          (fun p => env.pathExists p) with
      | some p => .ok p
      | none => .error (.appNotFound n)

/-! ## Concrete environments used by the witness and counterexample theorems -/

/-- A concrete grant environment: `/root/nope` does not resolve, every other
path canonicalizes to itself, `/home/tester/file.txt` is the only
non-directory, the trusted root is `/home/tester`, and the registry accepts
everything. -/
def grantEnvW : GrantEnv where
  canonicalize := fun p => if p == "/root/nope" then none else some p
  isDir := fun p => !(p == "/home/tester/file.txt")
  home := some "/home/tester"
  allowDirOk := fun _ => true

/-- Like `grantEnvW` but with the trusted root `/home/user`, for the
component-versus-string containment witness. -/
def grantEnvW9 : GrantEnv where
  canonicalize := fun p => some p
  isDir := fun _ => true
  home := some "/home/user"
  allowDirOk := fun _ => true

/-- A concrete icon environment on which a successful resolution runs end to
end: the display-name query finds the bundle, the plist read yields
`AppIcon`, the icns file exists, and sips produces the bytes `77, 1, 2`. -/
def iconEnvW4 : IconEnv where
  mdfind := fun q =>
    if q == displayQuery "Foo" then some ⟨true, "/Applications/Foo.app\n", ""⟩
    else none
  defaults := fun p =>
    if p == "/Applications/Foo.app/Contents/Info.plist" then
      some ⟨true, "AppIcon\n", ""⟩
    else none
  pathExists := fun p => p == "/Applications/Foo.app/Contents/Resources/AppIcon.icns"
  sips := fun _ _ => some ⟨true, "", ""⟩
  sipsBytes := fun _ => [77, 1, 2]
  tempDir := "/tmp"

/-- A concrete icon environment where metadata search never runs (both
queries spawn-fail), the bundle is found through the well-known-path
fallback, and the plist read returns a non-zero exit with empty output. -/
def iconEnvW5 : IconEnv where
  mdfind := fun _ => none
  defaults := fun _ => some ⟨false, "", ""⟩
  pathExists := fun _ => true
  sips := fun _ _ => some ⟨true, "", ""⟩
  sipsBytes := fun _ => [0]
  tempDir := "/tmp"

/-- The counterexample environment for the fail-fast claim: for the name
`Foo` the display-name mdfind invocation spawn-fails, for the name `Bar` the
display-name mdfind invocation exits non-zero yet prints a bundle path. -/
def iconEnvCex : IconEnv where
  mdfind := fun q =>
    if q == displayQuery "Foo" then none
    else if q == fsQuery "Foo" then some ⟨true, "/Applications/Foo.app\n", ""⟩
    else if q == displayQuery "Bar" then some ⟨false, "/Applications/Bar.app\n", ""⟩
    else none
  defaults := fun _ => none
  pathExists := fun _ => false
  sips := fun _ _ => none
  sipsBytes := fun _ => []
  tempDir := "/tmp"

/-- A concrete icon environment where every mdfind invocation spawn-fails but
the first well-known path exists. -/
def iconEnvW3 : IconEnv where
  mdfind := fun _ => none
  defaults := fun _ => none
  pathExists := fun p => p == "/Applications/Foo.app"
  sips := fun _ _ => none
  sipsBytes := fun _ => []
  tempDir := "/tmp"

/-! ## Helper lemmas -/

/-- String append is associative. -/
theorem strAppend_assoc (a b c : String) : a ++ b ++ c = a ++ (b ++ c) := by
  cases a with | mk la =>
  cases b with | mk lb =>
  cases c with | mk lc =>
  show String.mk ((la ++ lb) ++ lc) = String.mk (la ++ (lb ++ lc))
  rw [List.append_assoc]

/-- The result of `allow_workspace_dir` does not depend on the registry
state: the state is only threaded, never consulted. -/
theorem allow_result_state_irrelevant (env : GrantEnv) (p : String)
    (st st2 : ScopeState) :
    (allow_workspace_dir env p st).1 = (allow_workspace_dir env p st2).1 := by
  unfold allow_workspace_dir registerDir
  cases env.canonicalize p with
  | none => rfl
  | some c =>
    cases hd : env.isDir c with
    | false => simp [hd]
    | true =>
      cases hh : env.home with
      | none => cases ha : env.allowDirOk c <;> simp [hd, ha]
      | some r =>
        cases hps : pathStartsWith c r with
        | false => simp [hd, hps]
        | true => cases ha : env.allowDirOk c <;> simp [hd, hps, ha]

/-- An error of the well-known-path fallback is always `appNotFound`. -/
theorem find_app_path_fallback_error (env : IconEnv) (n : String) (e : IconError)
    (h : find_app_path_fallback env n = .error e) : e = .appNotFound n := by
  unfold find_app_path_fallback at h
  split at h
  · simp at h
  · injection h with h2
    exact h2.symm

/-- An error of `find_app_path` from the second query on is always
`appNotFound`. -/
theorem find_app_path_fs_error (env : IconEnv) (n : String) (e : IconError)
    (h : find_app_path_fs env n = .error e) : e = .appNotFound n := by
  unfold find_app_path_fs at h
  split at h
  · split at h
    · simp at h
    · exact find_app_path_fallback_error env n e h
  · exact find_app_path_fallback_error env n e h

/-- An error of `find_app_path` is always `appNotFound`. -/
theorem find_app_path_error_shape (env : IconEnv) (n : String) (e : IconError)
    (h : find_app_path env n = .error e) : e = .appNotFound n := by
  unfold find_app_path at h
  split at h
  · split at h
    · simp at h
    · exact find_app_path_fs_error env n e h
  · exact find_app_path_fs_error env n e h

/-- Reading a temporary file just written yields the written bytes. -/
theorem lookupTmp_writeTmp (st : TmpState) (p : String) (bs : List Nat) :
    lookupTmp (writeTmp st p bs) p = some bs := by
  simp [lookupTmp, writeTmp, List.find?]

/-- After removal, a temporary file is gone. -/
theorem lookupTmp_removeTmp (st : TmpState) (p : String) :
    lookupTmp (removeTmp st p) p = none := by
  induction st with
  | nil => rfl
  | cons e tl ih =>
    cases he : e.1 == p with
    | true => simpa [removeTmp, List.filter_cons, he] using ih
    | false => simpa [removeTmp, lookupTmp, List.find?, List.filter_cons, he] using ih

/-- A successful run of the tail of the pipeline returns the data URL built
from the bytes sips wrote, and the temporary PNG is gone from the final
state. -/
theorem get_app_icon_at_icns_success (env : IconEnv) (n icns s : String)
    (st st2 : TmpState)
    (h : get_app_icon_at_icns env n icns st = (.ok s, st2)) :
    s = "data:image/png;base64," ++ base64Encode (env.sipsBytes icns) ∧
    lookupTmp st2 (tmpPngPath env n) = none := by
  unfold get_app_icon_at_icns at h
  split at h
  · simp at h
  · split at h
    · simp at h
    · split at h
      · simp at h
      · simp only [lookupTmp_writeTmp] at h
        simp only [Prod.mk.injEq, Except.ok.injEq] at h
        refine ⟨h.1.symm, ?_⟩
        rw [← h.2]
        exact lookupTmp_removeTmp _ _

/-- The tail of the pipeline (after the plist read) never produces the
plist-read error. -/
theorem get_app_icon_at_icns_no_plist_error (env : IconEnv) (n icns : String)
    (st : TmpState) :
    (get_app_icon_at_icns env n icns st).1 ≠ .error .plistReadError := by
  unfold get_app_icon_at_icns
  split
  · simp
  · split
    · simp
    · split
      · simp
      · split <;> simp

/-! ## Claim theorems -/

/-- Claim C1: for a call whose path canonicalizes to an existing directory,
when `HOME` is set the call fails with `outsideAllowedRoot` exactly when the
canonical path is not a descendant of (or equal to) the trusted root in the
component-wise sense, and otherwise proceeds past the containment check to
registration; when `HOME` is unset the containment check is skipped and the
call proceeds to registration. -/
theorem allow_workspace_dir_containment (env : GrantEnv) (p c : String)
    (st : ScopeState)
    (hc : env.canonicalize p = some c) (hd : env.isDir c = true) :
    (∀ r, env.home = some r → pathStartsWith c r = false →
      (allow_workspace_dir env p st).1 = .error .outsideAllowedRoot) ∧
    (∀ r, env.home = some r → pathStartsWith c r = true →
      (allow_workspace_dir env p st).1 = .ok () ∨
      (allow_workspace_dir env p st).1 = .error .registrationFailed) ∧
    (env.home = none →
      (allow_workspace_dir env p st).1 = .ok () ∨
      (allow_workspace_dir env p st).1 = .error .registrationFailed) := by
  refine ⟨?_, ?_, ?_⟩
  · intro r hr hout
    simp [allow_workspace_dir, hc, hd, hr, hout]
  · intro r hr hin
    cases ha : env.allowDirOk c <;>
      simp [allow_workspace_dir, registerDir, hc, hd, hr, hin, ha]
  · intro hr
    cases ha : env.allowDirOk c <;>
      simp [allow_workspace_dir, registerDir, hc, hd, hr, ha]

/-- Witness for C1: in the concrete environment with trusted root
`/home/tester`, granting `/etc` fails with `outsideAllowedRoot`. -/
theorem allow_workspace_dir_containment_w :
    (allow_workspace_dir grantEnvW "/etc" ([] : ScopeState)).1 =
      .error .outsideAllowedRoot :=
  (allow_workspace_dir_containment grantEnvW "/etc" "/etc" ([] : ScopeState)
    rfl rfl).1 "/home/tester" rfl rfl

/-- Claim C2: `find_app_path` locates the bundle in exactly the order the
spec describes: display-name query, filesystem-name query with the `.app`
suffix, each accepting the first output line ending in `.app`; then the
fixed ordered list of well-known installation directories, taking the first
candidate that exists; otherwise the not-found error.  Stated as equality
with a second definition written from the spec's wording. -/
theorem find_app_path_matches_spec (env : IconEnv) (n : String) :
    find_app_path env n = find_app_path_of_spec env n := by
  unfold find_app_path find_app_path_of_spec find_app_path_fs
    find_app_path_fallback mdQueryMatch
  cases env.mdfind (displayQuery n) <;> cases env.mdfind (fsQuery n) <;> rfl

/-- Counterexample to claim C3 as stated: in `iconEnvCex`, the display-name
mdfind invocation for `Foo` spawn-fails yet `find_app_path` continues and
succeeds through the second query, and the display-name mdfind invocation
for `Bar` exits non-zero yet its printed path is accepted — so neither a
subprocess invocation failure nor a non-zero exit code is a hard failure of
the bundle-location step. -/
theorem failure_semantics_cex :
    iconEnvCex.mdfind (displayQuery "Foo") = none ∧
    find_app_path iconEnvCex "Foo" = .ok "/Applications/Foo.app" ∧
    iconEnvCex.mdfind (displayQuery "Bar") =
      some ⟨false, "/Applications/Bar.app\n", ""⟩ ∧
    find_app_path iconEnvCex "Bar" = .ok "/Applications/Bar.app" :=
  ⟨rfl, rfl, rfl, rfl⟩

/-- Claim C3 (amended): in the bundle-location step, mdfind invocation
failures are tolerated — with both queries spawn-failing, resolution still
proceeds to the well-known-path fallback; in the plist-read step a spawn
failure is a hard `plistReadError`; in the conversion step a sips spawn
failure and a sips non-zero exit are both hard failures. -/
theorem failure_semantics_amended (env : IconEnv) (n ap : String) (st : TmpState)
    (out r : ProcOut) :
    (env.mdfind (displayQuery n) = none → env.mdfind (fsQuery n) = none →
      env.pathExists ("/Applications/" ++ n ++ ".app") = true →
      find_app_path env n = .ok ("/Applications/" ++ n ++ ".app")) ∧
    (find_app_path env n = .ok ap →
      env.defaults (ap ++ "/Contents/Info.plist") = none →
      (get_app_icon env n st).1 = .error .plistReadError) ∧
    (find_app_path env n = .ok ap →
      env.defaults (ap ++ "/Contents/Info.plist") = some out →
      env.pathExists (ap ++ "/Contents/Resources/" ++ iconFileName out.stdout) = true →
      env.sips (ap ++ "/Contents/Resources/" ++ iconFileName out.stdout)
        (tmpPngPath env n) = none →
      (get_app_icon env n st).1 = .error .sipsSpawnError) ∧
    (find_app_path env n = .ok ap →
      env.defaults (ap ++ "/Contents/Info.plist") = some out →
      env.pathExists (ap ++ "/Contents/Resources/" ++ iconFileName out.stdout) = true →
      env.sips (ap ++ "/Contents/Resources/" ++ iconFileName out.stdout)
        (tmpPngPath env n) = some r →
      r.success = false →
      (get_app_icon env n st).1 = .error (.sipsFailed r.stderr)) := by
  refine ⟨?_, ?_, ?_, ?_⟩
  · intro h1 h2 h3
    unfold find_app_path find_app_path_fs find_app_path_fallback
    rw [h1, h2]
    simp [h3]
  · intro hf hd
    unfold get_app_icon
    rw [hf]
    simp [hd]
  · intro hf hd hex hs
    unfold get_app_icon
    rw [hf]
    simp only [hd]
    unfold get_app_icon_at_icns
    rw [hex, hs]
    rfl
  · intro hf hd hex hs hr
    unfold get_app_icon
    rw [hf]
    simp only [hd]
    unfold get_app_icon_at_icns
    rw [hex, hs]
    simp [hr]

/-- Witness for the amended C3: with every mdfind invocation spawn-failing,
`find_app_path` still resolves `Foo` through the well-known paths. -/
theorem failure_semantics_amended_w :
    find_app_path iconEnvW3 "Foo" = .ok ("/Applications/" ++ "Foo" ++ ".app") :=
  (failure_semantics_amended iconEnvW3 "Foo" "" ([] : TmpState)
    (ProcOut.mk true "" "") (ProcOut.mk true "" "")).1 rfl rfl rfl

/-- Claim C4: every successful `get_app_icon` call returns exactly the
string `data:image/png;base64,` followed by the base64 encoding of the bytes
read back from the converted temporary PNG, and the temporary file is gone
from the final temporary-file state. -/
theorem get_app_icon_success_shape (env : IconEnv) (n ap s : String)
    (out : ProcOut) (st st2 : TmpState)
    (hf : find_app_path env n = .ok ap)
    (hd : env.defaults (ap ++ "/Contents/Info.plist") = some out)
    (h : get_app_icon env n st = (.ok s, st2)) :
    s = "data:image/png;base64," ++
      base64Encode (env.sipsBytes
        (ap ++ "/Contents/Resources/" ++ iconFileName out.stdout)) ∧
    lookupTmp st2 (tmpPngPath env n) = none := by
  unfold get_app_icon at h
  rw [hf] at h
  simp only [hd] at h
  exact get_app_icon_at_icns_success env n
    (ap ++ "/Contents/Resources/" ++ iconFileName out.stdout) s st st2 h

/-- Witness for C4: the concrete successful run in `iconEnvW4` produces the
data URL for the bytes `77, 1, 2` and leaves no temporary file. -/
theorem get_app_icon_success_shape_w :
    "data:image/png;base64,TQEC" = "data:image/png;base64," ++
      base64Encode (iconEnvW4.sipsBytes
        ("/Applications/Foo.app" ++ "/Contents/Resources/" ++
          iconFileName (ProcOut.mk true "AppIcon\n" "").stdout)) ∧
    lookupTmp ([] : TmpState) (tmpPngPath iconEnvW4 "Foo") = none :=
  get_app_icon_success_shape iconEnvW4 "Foo" "/Applications/Foo.app"
    "data:image/png;base64,TQEC" (ProcOut.mk true "AppIcon\n" "")
    ([] : TmpState) ([] : TmpState) rfl rfl rfl

/-- Claim C5: when the icon-file attribute reads back empty (also covering a
plist read that yields no value, since its stdout is empty), the pipeline
substitutes `AppIcon`, appends `.icns`, and proceeds with that icon path;
the call never fails with `plistReadError` in that situation, and in general
`plistReadError` arises only when the plist read operation itself errors. -/
theorem icon_empty_attribute_default (env env2 : IconEnv) (n n2 ap : String)
    (st st2 : TmpState) (out : ProcOut)
    (hf : find_app_path env n = .ok ap)
    (hd : env.defaults (ap ++ "/Contents/Info.plist") = some out)
    (he : strTrim out.stdout = "") :
    iconFileName out.stdout = "AppIcon.icns" ∧
    get_app_icon env n st =
      get_app_icon_at_icns env n (ap ++ "/Contents/Resources/AppIcon.icns") st ∧
    (get_app_icon env n st).1 ≠ .error .plistReadError ∧
    ((get_app_icon env2 n2 st2).1 = .error .plistReadError →
      ∃ ap2, find_app_path env2 n2 = .ok ap2 ∧
        env2.defaults (ap2 ++ "/Contents/Info.plist") = none) := by
  have hname : iconFileName out.stdout = "AppIcon.icns" := by
    unfold iconFileName
    rw [he]
    rfl
  have hcall : get_app_icon env n st =
      get_app_icon_at_icns env n (ap ++ "/Contents/Resources/AppIcon.icns") st := by
    unfold get_app_icon
    rw [hf]
    simp only [hd, hname]
    rw [strAppend_assoc]
    rfl
  refine ⟨hname, hcall, ?_, ?_⟩
  · rw [hcall]
    exact get_app_icon_at_icns_no_plist_error env n
      (ap ++ "/Contents/Resources/AppIcon.icns") st
  · intro hp
    unfold get_app_icon at hp
    cases hf2 : find_app_path env2 n2 with
    | error e =>
      rw [hf2] at hp
      simp only [Except.error.injEq] at hp
      have hshape := find_app_path_error_shape env2 n2 e hf2
      rw [hshape] at hp
      cases hp
    | ok ap2 =>
      rw [hf2] at hp
      cases hd2 : env2.defaults (ap2 ++ "/Contents/Info.plist") with
      | none => exact ⟨ap2, rfl, hd2⟩
      | some out2 =>
        simp only [hd2] at hp
        exact absurd hp (get_app_icon_at_icns_no_plist_error env2 n2 _ st2)

/-- Witness for C5: in `iconEnvW5` the plist read exits non-zero with empty
output and the pipeline proceeds with `AppIcon.icns`. -/
theorem icon_empty_attribute_default_w :
    get_app_icon iconEnvW5 "Emp" ([] : TmpState) =
      get_app_icon_at_icns iconEnvW5 "Emp"
        ("/Applications/Emp.app" ++ "/Contents/Resources/AppIcon.icns")
        ([] : TmpState) :=
  (icon_empty_attribute_default iconEnvW5 iconEnvW5 "Emp" "Emp"
    "/Applications/Emp.app" ([] : TmpState) ([] : TmpState)
    (ProcOut.mk false "" "") rfl rfl rfl).2.1

/-- Claim C6: when the path does not exist or cannot be resolved to a
canonical form, `allow_workspace_dir` fails with `invalidPath`. -/
theorem allow_invalid_path (env : GrantEnv) (p : String) (st : ScopeState)
    (hc : env.canonicalize p = none) :
    (allow_workspace_dir env p st).1 = .error .invalidPath := by
  simp [allow_workspace_dir, hc]

/-- Witness for C6: granting the unresolvable `/root/nope` fails with
`invalidPath`. -/
theorem allow_invalid_path_w :
    (allow_workspace_dir grantEnvW "/root/nope" ([] : ScopeState)).1 =
      .error .invalidPath :=
  allow_invalid_path grantEnvW "/root/nope" ([] : ScopeState) rfl

/-- Claim C7: when the canonical form of an existing path is not a
directory, `allow_workspace_dir` fails with `notADirectory`. -/
theorem allow_not_a_directory (env : GrantEnv) (p c : String) (st : ScopeState)
    (hc : env.canonicalize p = some c) (hd : env.isDir c = false) :
    (allow_workspace_dir env p st).1 = .error .notADirectory := by
  simp [allow_workspace_dir, hc, hd]

/-- Witness for C7: granting the regular file `/home/tester/file.txt` fails
with `notADirectory`. -/
theorem allow_not_a_directory_w :
    (allow_workspace_dir grantEnvW "/home/tester/file.txt" ([] : ScopeState)).1 =
      .error .notADirectory :=
  allow_not_a_directory grantEnvW "/home/tester/file.txt"
    "/home/tester/file.txt" ([] : ScopeState) rfl rfl

/-- Claim C8: `allow_workspace_dir` is idempotent — when a call succeeds,
calling it again on the resulting registry state succeeds as well, with no
duplicate detection and no error on the second call. -/
theorem allow_idempotent (env : GrantEnv) (p : String) (st : ScopeState)
    (h : (allow_workspace_dir env p st).1 = .ok ()) :
    (allow_workspace_dir env p st).1 = .ok () ∧
    (allow_workspace_dir env p ((allow_workspace_dir env p st).2)).1 = .ok () :=
  ⟨h, (allow_result_state_irrelevant env p
    ((allow_workspace_dir env p st).2) st).trans h⟩

/-- Witness for C8: granting `/home/tester/proj` twice succeeds both
times. -/
theorem allow_idempotent_w :
    (allow_workspace_dir grantEnvW "/home/tester/proj" ([] : ScopeState)).1 = .ok () ∧
    (allow_workspace_dir grantEnvW "/home/tester/proj"
      ((allow_workspace_dir grantEnvW "/home/tester/proj" ([] : ScopeState)).2)).1 =
      .ok () :=
  allow_idempotent grantEnvW "/home/tester/proj" ([] : ScopeState) rfl

/-- Claim C9: the containment check compares whole path components, not
string prefixes — with trusted root `/home/user`, the existing directory
`/home/user2` (whose string form begins with the root's string form) is
rejected with `outsideAllowedRoot`. -/
theorem containment_checks_components (env : GrantEnv) (st : ScopeState)
    (hh : env.home = some "/home/user")
    (hc : env.canonicalize "/home/user2" = some "/home/user2")
    (hd : env.isDir "/home/user2" = true) :
    strStartsWith "/home/user2" "/home/user" = true ∧
    pathStartsWith "/home/user2" "/home/user" = false ∧
    (allow_workspace_dir env "/home/user2" st).1 = .error .outsideAllowedRoot := by
  refine ⟨rfl, rfl, ?_⟩
  have hps : pathStartsWith "/home/user2" "/home/user" = false := rfl
  simp [allow_workspace_dir, hc, hd, hh, hps]

/-- Witness for C9: the concrete environment `grantEnvW9` exhibits the
rejection of `/home/user2` under the root `/home/user`. -/
theorem containment_checks_components_w :
    strStartsWith "/home/user2" "/home/user" = true ∧
    pathStartsWith "/home/user2" "/home/user" = false ∧
    (allow_workspace_dir grantEnvW9 "/home/user2" ([] : ScopeState)).1 =
      .error .outsideAllowedRoot :=
  containment_checks_components grantEnvW9 ([] : ScopeState) rfl rfl rfl

/-- Claim C10: `allow_workspace_dir` is atomic with respect to the registry:
on `invalidPath`, `notADirectory` and `outsideAllowedRoot` the registry
state is unchanged; the `allow_directory` invocation is recorded exactly on
the success path and on the attempt that yields `registrationFailed`. -/
theorem allow_atomic_registry (env : GrantEnv) (p : String) (st : ScopeState) :
    ((allow_workspace_dir env p st).1 = .error .invalidPath ∨
     (allow_workspace_dir env p st).1 = .error .notADirectory ∨
     (allow_workspace_dir env p st).1 = .error .outsideAllowedRoot →
       (allow_workspace_dir env p st).2 = st) ∧
    ((allow_workspace_dir env p st).1 = .ok () ∨
     (allow_workspace_dir env p st).1 = .error .registrationFailed →
       ∃ c, env.canonicalize p = some c ∧
         (allow_workspace_dir env p st).2 = (c, true) :: st) := by
  unfold allow_workspace_dir registerDir
  cases hc : env.canonicalize p with
  | none => simp
  | some c =>
    cases hd : env.isDir c with
    | false => simp [hd]
    | true =>
      cases hh : env.home with
      | none => cases ha : env.allowDirOk c <;> simp [hd, ha]
      | some r =>
        cases hps : pathStartsWith c r with
        | false => simp [hd, hps]
        | true => cases ha : env.allowDirOk c <;> simp [hd, hps, ha]

/-- Witness for C10: the failed grant of `/root/nope` leaves the registry
state unchanged. -/
theorem allow_atomic_registry_w :
    (allow_workspace_dir grantEnvW "/root/nope" ([] : ScopeState)).2 =
      ([] : ScopeState) :=
  (allow_atomic_registry grantEnvW "/root/nope" ([] : ScopeState)).1 (Or.inl rfl)
